import Mathlib

/-!
Shallow embedding of the Mender MCU POSIX storage backend
(`mender-storage.c`) and proofs of its specified properties.

The filesystem is modelled as a partial map from file names to byte
contents.  Fallible libc primitives (fopen, fwrite, fread, malloc/calloc)
are driven by explicit environment records: a flag or capacity chooses the
branch the C code takes when the primitive fails, so every failure path of
the source is reachable in the model.  Output parameters written through
pointers are modelled as `Option` components of the result: `none` means
the parameter was never assigned a live buffer (left untouched, set to
NULL, or the buffer was freed before returning).
-/

namespace MenderStorage

/-- Bytes are natural numbers (the source manipulates `unsigned char`). -/
abbrev Byte := Nat

/-- The filesystem: `none` means the file is absent. -/
abbrev FS := String → Option (List Byte)

/-- Result codes used by `mender-storage.c` (subset of `mender_err_t`). -/
inductive mender_err_t where
  | MENDER_OK
  | MENDER_FAIL
  | MENDER_NOT_FOUND
deriving DecidableEq, Repr

open mender_err_t

/-- The empty filesystem. -/
def emptyFS : FS := fun _ => none

/-- Replace (or create) the content of one file. -/
def fsUpdate (fs : FS) (path : String) (content : List Byte) : FS :=
  fun q => if q = path then some content else fs q

/-- CONFIG_MENDER_STORAGE_PATH defaults to the working directory. -/
def CONFIG_MENDER_STORAGE_PATH : String := ""

/-- NVS file for the private key. -/
def MENDER_STORAGE_NVS_PRIVATE_KEY : String :=
  CONFIG_MENDER_STORAGE_PATH ++ "key.der"

/-- NVS file for the public key. -/
def MENDER_STORAGE_NVS_PUBLIC_KEY : String :=
  CONFIG_MENDER_STORAGE_PATH ++ "pubkey.der"

/-- NVS file for the deployment data. -/
def MENDER_STORAGE_NVS_DEPLOYMENT_DATA : String :=
  CONFIG_MENDER_STORAGE_PATH ++ "deployment-data.json"

/-- NVS file for the update state record. -/
def MENDER_STORAGE_NVS_UPDATE_STATE : String :=
  CONFIG_MENDER_STORAGE_PATH ++ "um_state.dat"

/-- NVS file for the artifact name (the macro name keeps the source's
spelling `ARTICACT`). -/
def MENDER_STORAGE_NVS_ARTICACT_NAME : String :=
  CONFIG_MENDER_STORAGE_PATH ++ "artifact_name.txt"

/-- Size in bytes of `mender_update_state_t`: a C `enum`, represented as
`int` (4 bytes) on the reference POSIX platform. -/
def stateSize : Nat := 4

/-- Little-endian byte serialization of a value stored in `n` bytes,
modelling `fwrite(&state, 1, sizeof(state), f)` of the in-memory
representation. -/
def natToBytesLE : Nat → Nat → List Byte
  | 0, _ => []
  | n + 1, v => v % 256 :: natToBytesLE n (v / 256)

/-- Little-endian byte deserialization, modelling
`fread(state, sizeof(*state), 1, f)`. -/
def natFromBytesLE : List Byte → Nat
  | [] => 0
  | b :: bs => b + 256 * natFromBytesLE bs

/-- Content of a buffer read as a C string: the bytes before the first
NUL. -/
def cstr (l : List Byte) : List Byte :=
  l.takeWhile (fun b => b != 0)

/-- Number of bytes `fwrite` reports written: `none` injects no failure
(the full request is written), `some k` caps the transfer at `k` bytes. -/
def fwriteCount (requested : Nat) (cap : Option Nat) : Nat :=
  match cap with
  | none => requested
  | some k => min k requested

/-- Failure injection for one `mender_storage_write_file` call. -/
structure WriteEnv where
  openFail : Bool
  writeCap : Option Nat
deriving Repr

/-- The no-failure write environment. -/
def writeOk : WriteEnv := ⟨false, none⟩

/-- Model of `mender_storage_write_file`: `fopen(path, "wb")` truncates the
file, then a single `fwrite` must transfer every byte; a short write leaves
the transferred prefix in the file and returns `MENDER_FAIL`. -/
def mender_storage_write_file (fs : FS) (env : WriteEnv) (path : String)
    (data : List Byte) : FS × mender_err_t :=
  if env.openFail then
    (fs, MENDER_FAIL)
  else
    let w := fwriteCount data.length env.writeCap
    if w ≠ data.length then
      (fsUpdate fs path (data.take w), MENDER_FAIL)
    else
      (fsUpdate fs path data, MENDER_OK)

/-- Failure injection for one `mender_storage_read_file` call. -/
structure ReadEnv where
  allocFail : Bool
  readFail : Bool
deriving Repr

/-- The no-failure read environment. -/
def readOk : ReadEnv := ⟨false, false⟩

/-- Model of `mender_storage_read_file`.  Absent file: `fopen` fails, the
function returns `MENDER_NOT_FOUND` with the output parameters untouched.
Empty file: `ftell` reports 0, `MENDER_NOT_FOUND`.  Otherwise
`malloc(length + 1)` may fail (`MENDER_FAIL`, no buffer exposed); the last
byte of the buffer is set to NUL and `fread` fills the first `length`
bytes, freeing the buffer and returning `MENDER_FAIL` on a short read.  On
success the result carries the buffer (stored content plus the trailing
NUL) and the stored length. -/
def mender_storage_read_file (fs : FS) (env : ReadEnv) (path : String) :
    mender_err_t × Option (List Byte × Nat) :=
  match fs path with
  | none => (MENDER_NOT_FOUND, none)
  | some content =>
    if content.length = 0 then
      (MENDER_NOT_FOUND, none)
    else if env.allocFail then
      (MENDER_FAIL, none)
    else if env.readFail then
      (MENDER_FAIL, none)
    else
      (MENDER_OK, some (content ++ [0], content.length))

/-- Model of `mender_storage_set_authentication_keys`: write the private
key file, then the public key file; the first failure aborts with
`MENDER_FAIL` and nothing rolls back the first write. -/
def mender_storage_set_authentication_keys (fs : FS)
    (envPriv envPub : WriteEnv) (private_key public_key : List Byte) :
    FS × mender_err_t :=
  let w1 := mender_storage_write_file fs envPriv
    MENDER_STORAGE_NVS_PRIVATE_KEY private_key
  if w1.2 ≠ MENDER_OK then
    (w1.1, MENDER_FAIL)
  else
    let w2 := mender_storage_write_file w1.1 envPub
      MENDER_STORAGE_NVS_PUBLIC_KEY public_key
    if w2.2 ≠ MENDER_OK then
      (w2.1, MENDER_FAIL)
    else
      (w2.1, MENDER_OK)

/-- Model of `mender_storage_get_authentication_keys`: read the private key
file, then the public key file.  If the first read does not return
`MENDER_OK` the function returns `MENDER_NOT_FOUND` with both outputs
unassigned; if the second read fails the private key buffer is freed, its
pointer set to NULL and its length to 0, and `MENDER_NOT_FOUND` is
returned. -/
def mender_storage_get_authentication_keys (fs : FS)
    (envPriv envPub : ReadEnv) :
    mender_err_t × Option (List Byte × Nat) × Option (List Byte × Nat) :=
  let rp := mender_storage_read_file fs envPriv MENDER_STORAGE_NVS_PRIVATE_KEY
  if rp.1 ≠ MENDER_OK then
    (MENDER_NOT_FOUND, none, none)
  else
    let rq := mender_storage_read_file fs envPub MENDER_STORAGE_NVS_PUBLIC_KEY
    if rq.1 ≠ MENDER_OK then
      (MENDER_NOT_FOUND, none, none)
    else
      (MENDER_OK, rp.2, rq.2)

/-- Model of `mender_storage_set_deployment_data` (the input is the
C string's content, `strlen` bytes with no NUL). -/
def mender_storage_set_deployment_data (fs : FS) (env : WriteEnv)
    (deployment_data : List Byte) : FS × mender_err_t :=
  let w := mender_storage_write_file fs env
    MENDER_STORAGE_NVS_DEPLOYMENT_DATA deployment_data
  if w.2 ≠ MENDER_OK then
    (w.1, MENDER_FAIL)
  else
    (w.1, MENDER_OK)

/-- Model of `mender_storage_get_deployment_data`: any outcome of
`mender_storage_read_file` other than `MENDER_OK` is reported as
`MENDER_NOT_FOUND`. -/
def mender_storage_get_deployment_data (fs : FS) (env : ReadEnv) :
    mender_err_t × Option (List Byte × Nat) :=
  let r := mender_storage_read_file fs env MENDER_STORAGE_NVS_DEPLOYMENT_DATA
  if r.1 ≠ MENDER_OK then
    (MENDER_NOT_FOUND, none)
  else
    (MENDER_OK, r.2)

/-- Failure injection for one `mender_storage_save_update_state` call. -/
structure SaveEnv where
  openFail : Bool
  stateWriteCap : Option Nat
  typeWriteCap : Option Nat
deriving Repr

/-- The no-failure save environment. -/
def saveOk : SaveEnv := ⟨false, none, none⟩

/-- Model of `mender_storage_save_update_state`: `fopen("wb")` truncates
the state file, `fwrite` stores the raw bytes of the state value, a second
`fwrite` appends the `strlen(artifact_type)` bytes of the artifact type; a
short write leaves the prefix written so far and returns `MENDER_FAIL`. -/
def mender_storage_save_update_state (fs : FS) (env : SaveEnv)
    (state : Nat) (artifact_type : List Byte) : FS × mender_err_t :=
  if env.openFail then
    (fs, MENDER_FAIL)
  else
    let stBytes := natToBytesLE stateSize state
    let w1 := fwriteCount stBytes.length env.stateWriteCap
    if w1 ≠ stBytes.length then
      (fsUpdate fs MENDER_STORAGE_NVS_UPDATE_STATE (stBytes.take w1),
        MENDER_FAIL)
    else
      let w2 := fwriteCount artifact_type.length env.typeWriteCap
      if w2 ≠ artifact_type.length then
        (fsUpdate fs MENDER_STORAGE_NVS_UPDATE_STATE
          (stBytes ++ artifact_type.take w2), MENDER_FAIL)
      else
        (fsUpdate fs MENDER_STORAGE_NVS_UPDATE_STATE
          (stBytes ++ artifact_type), MENDER_OK)

/-- Failure injection for one `mender_storage_get_update_state` call. -/
structure GetStateEnv where
  stateReadFail : Bool
  allocFail : Bool
  typeReadFail : Bool
deriving Repr

/-- The no-failure get-update-state environment. -/
def getOk : GetStateEnv := ⟨false, false, false⟩

/-- Model of `mender_storage_get_update_state`.  Absent file:
`MENDER_NOT_FOUND`.  Empty file: `MENDER_NOT_FOUND`.  A file shorter than
`sizeof(*state) + 2` bytes: `MENDER_FAIL` before anything is read.  Then
`fread` decodes the state value into the caller's `state` parameter (a
short read returns `MENDER_FAIL` with `state` not assigned), `calloc`
allocates `length - sizeof(*state) + 1` zeroed bytes for the artifact type
(on failure `MENDER_FAIL`, with the decoded state already stored through
the caller's pointer), and a second `fread` fills the artifact type bytes,
freeing the buffer and returning `MENDER_FAIL` on a short read. -/
def mender_storage_get_update_state (fs : FS) (env : GetStateEnv) :
    mender_err_t × Option Nat × Option (List Byte) :=
  match fs MENDER_STORAGE_NVS_UPDATE_STATE with
  | none => (MENDER_NOT_FOUND, none, none)
  | some content =>
    if content.length = 0 then
      (MENDER_NOT_FOUND, none, none)
    else if content.length < stateSize + 2 then
      (MENDER_FAIL, none, none)
    else if env.stateReadFail then
      (MENDER_FAIL, none, none)
    else
      let st := natFromBytesLE (content.take stateSize)
      if env.allocFail then
        (MENDER_FAIL, some st, none)
      else if env.typeReadFail then
        (MENDER_FAIL, some st, none)
      else
        (MENDER_OK, some st, some (content.drop stateSize ++ [0]))

/-- Model of `mender_storage_set_artifact_name`. -/
def mender_storage_set_artifact_name (fs : FS) (env : WriteEnv)
    (artifact_name : List Byte) : FS × mender_err_t :=
  let w := mender_storage_write_file fs env
    MENDER_STORAGE_NVS_ARTICACT_NAME artifact_name
  if w.2 ≠ MENDER_OK then
    (w.1, MENDER_FAIL)
  else
    (w.1, MENDER_OK)

/-- Buffer produced by `strdup("unknown")`: the seven ASCII bytes of
`unknown` followed by the terminating NUL. -/
def unknownBuf : List Byte := [117, 110, 107, 110, 111, 119, 110, 0]

/-- ASCII bytes of the literal string `unknown` (no terminator). -/
def unknownName : List Byte := [117, 110, 107, 110, 111, 119, 110]

/-- Model of `mender_storage_get_artifact_name`: on `MENDER_NOT_FOUND` from
the reader the caller receives `strdup("unknown")` and `MENDER_OK`; any
other result of the reader is returned unchanged, with the success buffer
passed through on `MENDER_OK`. -/
def mender_storage_get_artifact_name (fs : FS) (env : ReadEnv) :
    mender_err_t × Option (List Byte) :=
  let r := mender_storage_read_file fs env MENDER_STORAGE_NVS_ARTICACT_NAME
  if r.1 = MENDER_OK then
    (MENDER_OK, Option.map Prod.fst r.2)
  else if r.1 = MENDER_NOT_FOUND then
    (MENDER_OK, some unknownBuf)
  else
    (r.1, none)

/-! Helper lemmas about the serialization primitives and the write
primitive. -/

lemma natToBytesLE_length (n v : Nat) : (natToBytesLE n v).length = n := by
  induction n generalizing v with
  | zero => rfl
  | succ n ih => simp [natToBytesLE, ih]

lemma natFromBytesLE_natToBytesLE (n v : Nat) :
    natFromBytesLE (natToBytesLE n v) = v % 256 ^ n := by
  induction n generalizing v with
  | zero => simp [natToBytesLE, natFromBytesLE, Nat.mod_one]
  | succ n ih =>
    rw [natToBytesLE, natFromBytesLE, ih, pow_succ, mul_comm (256 ^ n) 256,
      Nat.mod_mul]

lemma cstr_append_zero (t : List Byte) (h : ∀ b ∈ t, b ≠ 0) :
    cstr (t ++ [0]) = t := by
  induction t with
  | nil => rfl
  | cons b t ih =>
    have hb : b ≠ 0 := h b (List.mem_cons_self b t)
    have ht : ∀ x ∈ t, x ≠ 0 := fun x hx => h x (List.mem_cons_of_mem b hx)
    have hcons : cstr ((b :: t) ++ [0]) = b :: cstr (t ++ [0]) := by
      simp [cstr, List.takeWhile_cons, hb]
    rw [hcons, ih ht]

lemma mender_storage_write_file_ok_content (fs : FS) (env : WriteEnv)
    (path : String) (data : List Byte)
    (h : (mender_storage_write_file fs env path data).2 = MENDER_OK) :
    (mender_storage_write_file fs env path data).1 = fsUpdate fs path data := by
  unfold mender_storage_write_file at h ⊢
  by_cases ho : env.openFail <;>
    by_cases hw : fwriteCount data.length env.writeCap = data.length <;>
    simp_all

lemma mender_storage_write_file_frame (fs : FS) (env : WriteEnv)
    (path q : String) (data : List Byte) (hq : q ≠ path) :
    (mender_storage_write_file fs env path data).1 q = fs q := by
  unfold mender_storage_write_file
  by_cases ho : env.openFail <;>
    by_cases hw : fwriteCount data.length env.writeCap = data.length <;>
    simp [ho, hw, fsUpdate, hq]

lemma save_ok_eq (fs : FS) (s : Nat) (t : List Byte) :
    mender_storage_save_update_state fs saveOk s t
      = (fsUpdate fs MENDER_STORAGE_NVS_UPDATE_STATE
          (natToBytesLE stateSize s ++ t), MENDER_OK) := by
  simp [mender_storage_save_update_state, saveOk, fwriteCount]

lemma get_ok_eq (fs : FS) (c : List Byte)
    (h : fs MENDER_STORAGE_NVS_UPDATE_STATE = some c)
    (h2 : stateSize + 2 ≤ c.length) :
    mender_storage_get_update_state fs getOk
      = (MENDER_OK, some (natFromBytesLE (c.take stateSize)),
          some (c.drop stateSize ++ [0])) := by
  have h0 : ¬ c.length = 0 := by omega
  have h1 : ¬ c.length < stateSize + 2 := by omega
  simp [mender_storage_get_update_state, h, h0, h1, getOk]

/-- C1, counterexample: saving state 2 with the one-byte artifact type
"t" produces a 5-byte record, and reading it back yields MENDER_FAIL with
no outputs — not MENDER_OK with the same pair as the claim states. -/
theorem C1_counterexample :
    mender_storage_get_update_state
      (mender_storage_save_update_state emptyFS saveOk 2 [116]).1 getOk
      = (MENDER_FAIL, none, none) ∧
    MENDER_FAIL ≠ MENDER_OK := by
  decide

/-- C1, amended: for every state value representable in the fixed-size
state field and every artifact type of length at least 2 (NUL-free, as a C
string is), save_update_state followed by get_update_state succeeds and
returns exactly the same state and artifact type (the returned buffer is
the type followed by a NUL, so its C-string content is the type). -/
theorem C1_round_trip (fs : FS) (s : Nat) (t : List Byte)
    (hs : s < 256 ^ stateSize) (ht2 : 2 ≤ t.length)
    (ht0 : ∀ b ∈ t, b ≠ 0) :
    (mender_storage_save_update_state fs saveOk s t).2 = MENDER_OK ∧
    mender_storage_get_update_state
      (mender_storage_save_update_state fs saveOk s t).1 getOk
      = (MENDER_OK, some s, some (t ++ [0])) ∧
    cstr (t ++ [0]) = t := by
  have hsave := save_ok_eq fs s t
  have hlen : (natToBytesLE stateSize s).length = stateSize :=
    natToBytesLE_length stateSize s
  refine ⟨by rw [hsave], ?_, cstr_append_zero t ht0⟩
  rw [hsave]
  have hfs : fsUpdate fs MENDER_STORAGE_NVS_UPDATE_STATE
      (natToBytesLE stateSize s ++ t) MENDER_STORAGE_NVS_UPDATE_STATE
      = some (natToBytesLE stateSize s ++ t) := by
    simp [fsUpdate]
  have hlen2 : stateSize + 2 ≤ (natToBytesLE stateSize s ++ t).length := by
    rw [List.length_append, hlen]
    omega
  rw [get_ok_eq _ _ hfs hlen2]
  have htake : (natToBytesLE stateSize s ++ t).take stateSize
      = natToBytesLE stateSize s := by
    rw [← hlen]
    exact List.take_left _ _
  have hdrop : (natToBytesLE stateSize s ++ t).drop stateSize = t := by
    rw [← hlen]
    exact List.drop_left _ _
  rw [htake, hdrop, natFromBytesLE_natToBytesLE, Nat.mod_eq_of_lt hs]

/-- C1, witness for the amended round trip at state 7 and artifact type
"ty". -/
theorem C1_round_trip_witness :
    (mender_storage_save_update_state emptyFS saveOk 7 [116, 121]).2
      = MENDER_OK ∧
    mender_storage_get_update_state
      (mender_storage_save_update_state emptyFS saveOk 7 [116, 121]).1 getOk
      = (MENDER_OK, some 7, some ([116, 121] ++ [0])) ∧
    cstr ([116, 121] ++ [0]) = [116, 121] :=
  C1_round_trip emptyFS 7 [116, 121] (by decide) (by decide) (by decide)

/-- C2, counterexample: a stored record of exactly one state value (4
bytes) followed by a zero-length artifact type is rejected by
get_update_state with MENDER_FAIL — the claim states it decodes
successfully. -/
theorem C2_counterexample :
    mender_storage_get_update_state
      (fsUpdate emptyFS MENDER_STORAGE_NVS_UPDATE_STATE [2, 0, 0, 0]) getOk
      = (MENDER_FAIL, none, none) ∧
    MENDER_FAIL ≠ MENDER_OK := by
  decide

/-- C2, amended: a persisted record of exactly one state value and a
zero-length artifact type is SHORTER than the minimum length
`sizeof(state) + 2` enforced by get_update_state, so it is treated as a
corrupt record: get_update_state returns MENDER_FAIL for it, in every
failure environment. -/
theorem C2_min_record_rejected (fs : FS) (env : GetStateEnv) (c : List Byte)
    (hfs : fs MENDER_STORAGE_NVS_UPDATE_STATE = some c)
    (hc : c.length = stateSize) :
    mender_storage_get_update_state fs env = (MENDER_FAIL, none, none) := by
  have hsz : stateSize = 4 := rfl
  have h0 : ¬ c.length = 0 := by omega
  have h1 : c.length < stateSize + 2 := by omega
  simp [mender_storage_get_update_state, hfs, h0, h1]

/-- C2, witness at the record holding state value 2 and an empty type. -/
theorem C2_min_record_rejected_witness :
    mender_storage_get_update_state
      (fsUpdate emptyFS MENDER_STORAGE_NVS_UPDATE_STATE [2, 0, 0, 0])
      ⟨false, true, false⟩
      = (MENDER_FAIL, none, none) :=
  C2_min_record_rejected
    (fsUpdate emptyFS MENDER_STORAGE_NVS_UPDATE_STATE [2, 0, 0, 0])
    ⟨false, true, false⟩ [2, 0, 0, 0] (by decide) (by decide)

/-- C3: get_update_state returns MENDER_NOT_FOUND when the update-state
item is absent or empty, and MENDER_FAIL with both output parameters
untouched for every non-empty record shorter than `sizeof(state) + 2`
bytes, whatever the failure environment. -/
theorem C3_short_record_handling (fs : FS) (env : GetStateEnv) :
    (fs MENDER_STORAGE_NVS_UPDATE_STATE = none →
      mender_storage_get_update_state fs env
        = (MENDER_NOT_FOUND, none, none)) ∧
    (fs MENDER_STORAGE_NVS_UPDATE_STATE = some [] →
      mender_storage_get_update_state fs env
        = (MENDER_NOT_FOUND, none, none)) ∧
    (∀ c, fs MENDER_STORAGE_NVS_UPDATE_STATE = some c → c ≠ [] →
      c.length < stateSize + 2 →
      mender_storage_get_update_state fs env = (MENDER_FAIL, none, none)) := by
  refine ⟨?_, ?_, ?_⟩
  · intro h
    simp [mender_storage_get_update_state, h]
  · intro h
    simp [mender_storage_get_update_state, h]
  · intro c h hne hshort
    have h0 : ¬ c.length = 0 := by
      simpa [List.length_eq_zero] using hne
    simp [mender_storage_get_update_state, h, h0, hshort]

/-- C3, witness: the three cases at an absent item, an empty item and a
one-byte item. -/
theorem C3_short_record_handling_witness :
    mender_storage_get_update_state emptyFS getOk
      = (MENDER_NOT_FOUND, none, none) ∧
    mender_storage_get_update_state
      (fsUpdate emptyFS MENDER_STORAGE_NVS_UPDATE_STATE []) getOk
      = (MENDER_NOT_FOUND, none, none) ∧
    mender_storage_get_update_state
      (fsUpdate emptyFS MENDER_STORAGE_NVS_UPDATE_STATE [9]) getOk
      = (MENDER_FAIL, none, none) :=
  ⟨(C3_short_record_handling emptyFS getOk).1 rfl,
   (C3_short_record_handling
      (fsUpdate emptyFS MENDER_STORAGE_NVS_UPDATE_STATE []) getOk).2.1
      (by decide),
   (C3_short_record_handling
      (fsUpdate emptyFS MENDER_STORAGE_NVS_UPDATE_STATE [9]) getOk).2.2
      [9] (by decide) (by decide) (by decide)⟩

/-- C4: when the private-key item exists (non-empty) and the public-key
item is absent, get_authentication_keys returns MENDER_NOT_FOUND with the
private-key buffer released and the caller's private-key pointer and
length cleared (no half-populated key pair), in every read
environment. -/
theorem C4_half_populated_keypair (fs : FS) (envPriv envPub : ReadEnv)
    (p : List Byte)
    (hpriv : fs MENDER_STORAGE_NVS_PRIVATE_KEY = some p) (hp : p ≠ [])
    (hpub : fs MENDER_STORAGE_NVS_PUBLIC_KEY = none) :
    mender_storage_get_authentication_keys fs envPriv envPub
      = (MENDER_NOT_FOUND, none, none) := by
  have hp0 : ¬ p.length = 0 := by
    simpa [List.length_eq_zero] using hp
  rcases envPriv with ⟨a, r⟩
  cases a <;> cases r <;>
    simp [mender_storage_get_authentication_keys, mender_storage_read_file,
      hpriv, hpub, hp0]

/-- C4, witness: a two-byte private key and no public key. -/
theorem C4_half_populated_keypair_witness :
    mender_storage_get_authentication_keys
      (fsUpdate emptyFS MENDER_STORAGE_NVS_PRIVATE_KEY [1, 2]) readOk readOk
      = (MENDER_NOT_FOUND, none, none) :=
  C4_half_populated_keypair
    (fsUpdate emptyFS MENDER_STORAGE_NVS_PRIVATE_KEY [1, 2]) readOk readOk
    [1, 2] (by decide) (by decide) (by decide)

/-- C5, counterexample: on a well-sized record, when the allocation for
the artifact type fails mid-decode, get_update_state returns MENDER_FAIL
but the decoded state value (here 1) has already been stored through the
caller's state output parameter — partially decoded data is visible,
contrary to the claim. -/
theorem C5_counterexample :
    mender_storage_get_update_state
      (fsUpdate emptyFS MENDER_STORAGE_NVS_UPDATE_STATE [1, 0, 0, 0, 65, 66])
      ⟨false, true, false⟩
      = (MENDER_FAIL, some 1, none) ∧
    (some 1 : Option Nat) ≠ none ∧
    MENDER_FAIL ≠ MENDER_OK := by
  decide

/-- C5, amended: whenever get_update_state returns a result other than
MENDER_OK, no artifact-type buffer is ever exposed through the caller's
artifact_type output parameter (any allocated buffer is freed first); the
state output parameter, however, may already hold the decoded state value
on the failure paths after the first read. -/
theorem C5_failure_hides_artifact (fs : FS) (env : GetStateEnv)
    (h : (mender_storage_get_update_state fs env).1 ≠ MENDER_OK) :
    (mender_storage_get_update_state fs env).2.2 = none := by
  unfold mender_storage_get_update_state at h ⊢
  cases hfs : fs MENDER_STORAGE_NVS_UPDATE_STATE with
  | none => simp [hfs]
  | some c =>
    rcases env with ⟨sr, af, tr⟩
    cases sr <;> cases af <;> cases tr <;>
      by_cases h0 : c.length = 0 <;>
      by_cases h1 : c.length < stateSize + 2 <;>
      simp_all <;>
      split_ifs <;>
      simp_all

/-- C5, witness at an absent update-state item. -/
theorem C5_failure_hides_artifact_witness :
    (mender_storage_get_update_state emptyFS getOk).2.2 = none :=
  C5_failure_hides_artifact emptyFS getOk (by decide)

/-- C6, counterexample: the deployment-data item exists and is non-empty,
but the read fails with an allocation error; get_deployment_data returns
MENDER_NOT_FOUND, not the distinct MENDER_FAIL code the claim requires. -/
theorem C6_counterexample :
    mender_storage_get_deployment_data
      (fsUpdate emptyFS MENDER_STORAGE_NVS_DEPLOYMENT_DATA [65])
      ⟨true, false⟩
      = (MENDER_NOT_FOUND, none) ∧
    MENDER_NOT_FOUND ≠ MENDER_FAIL := by
  decide

/-- C6, amended: get_deployment_data never returns MENDER_FAIL; it
returns MENDER_NOT_FOUND exactly when the underlying read does not fully
succeed — item absent, item empty, or a read/allocation failure — and
MENDER_OK otherwise. -/
theorem C6_get_deployment_data_codes (fs : FS) (env : ReadEnv) :
    (mender_storage_get_deployment_data fs env).1 ≠ MENDER_FAIL ∧
    ((mender_storage_get_deployment_data fs env).1 = MENDER_NOT_FOUND ↔
      ¬ ∃ c, fs MENDER_STORAGE_NVS_DEPLOYMENT_DATA = some c ∧ c ≠ [] ∧
        env.allocFail = false ∧ env.readFail = false) := by
  rcases env with ⟨a, r⟩
  cases hfs : fs MENDER_STORAGE_NVS_DEPLOYMENT_DATA with
  | none =>
    cases a <;> cases r <;>
      simp [mender_storage_get_deployment_data, mender_storage_read_file, hfs]
  | some c =>
    by_cases h0 : c.length = 0 <;> cases a <;> cases r <;>
      simp_all [mender_storage_get_deployment_data,
        mender_storage_read_file, hfs, List.length_eq_zero]

/-- C7: get_artifact_name returns MENDER_OK with the strdup copy of the literal
"unknown" when the artifact-name item is absent, and propagates any other
read failure (allocation or read error on a non-empty item) as
MENDER_FAIL with no buffer; the returned default buffer's C-string
content is exactly the bytes of "unknown". -/
theorem C7_artifact_name_default (fs : FS) (env : ReadEnv) :
    (fs MENDER_STORAGE_NVS_ARTICACT_NAME = none →
      mender_storage_get_artifact_name fs env
        = (MENDER_OK, some unknownBuf)) ∧
    (∀ c, fs MENDER_STORAGE_NVS_ARTICACT_NAME = some c → c ≠ [] →
      (env.allocFail = true ∨ env.readFail = true) →
      mender_storage_get_artifact_name fs env = (MENDER_FAIL, none)) ∧
    cstr unknownBuf = unknownName := by
  refine ⟨?_, ?_, by decide⟩
  · intro h
    simp [mender_storage_get_artifact_name, mender_storage_read_file, h]
  · intro c h hne henv
    have h0 : ¬ c.length = 0 := by
      simpa [List.length_eq_zero] using hne
    rcases env with ⟨a, r⟩
    rcases henv with ha | hr
    · simp_all [mender_storage_get_artifact_name, mender_storage_read_file]
    · cases a <;>
        simp_all [mender_storage_get_artifact_name, mender_storage_read_file]

/-- C7, witness: absent item gives the default, a failing read on an
existing item gives MENDER_FAIL. -/
theorem C7_artifact_name_default_witness :
    mender_storage_get_artifact_name emptyFS readOk
      = (MENDER_OK, some unknownBuf) ∧
    mender_storage_get_artifact_name
      (fsUpdate emptyFS MENDER_STORAGE_NVS_ARTICACT_NAME [65]) ⟨true, false⟩
      = (MENDER_FAIL, none) :=
  ⟨(C7_artifact_name_default emptyFS readOk).1 rfl,
   (C7_artifact_name_default
      (fsUpdate emptyFS MENDER_STORAGE_NVS_ARTICACT_NAME [65])
      ⟨true, false⟩).2.1 [65] (by decide) (by decide) (Or.inl rfl)⟩

/-- C8: set_authentication_keys returns MENDER_FAIL if the private-key
write fails, and if the private-key write succeeds but the public-key
write fails it still returns MENDER_FAIL while the private-key item keeps
its newly written content — no rollback of the first write. -/
theorem C8_no_rollback (fs : FS) (e1 e2 : WriteEnv)
    (private_key public_key : List Byte) :
    ((mender_storage_write_file fs e1 MENDER_STORAGE_NVS_PRIVATE_KEY
        private_key).2 ≠ MENDER_OK →
      (mender_storage_set_authentication_keys fs e1 e2 private_key
        public_key).2 = MENDER_FAIL) ∧
    ((mender_storage_write_file fs e1 MENDER_STORAGE_NVS_PRIVATE_KEY
        private_key).2 = MENDER_OK →
      (mender_storage_write_file
        (mender_storage_write_file fs e1 MENDER_STORAGE_NVS_PRIVATE_KEY
          private_key).1
        e2 MENDER_STORAGE_NVS_PUBLIC_KEY public_key).2 ≠ MENDER_OK →
      (mender_storage_set_authentication_keys fs e1 e2 private_key
        public_key).2 = MENDER_FAIL ∧
      (mender_storage_set_authentication_keys fs e1 e2 private_key
        public_key).1 MENDER_STORAGE_NVS_PRIVATE_KEY = some private_key) := by
  constructor
  · intro h1
    simp [mender_storage_set_authentication_keys, h1]
  · intro h1 h2
    have hcontent := mender_storage_write_file_ok_content fs e1
      MENDER_STORAGE_NVS_PRIVATE_KEY private_key h1
    have hne : MENDER_STORAGE_NVS_PRIVATE_KEY ≠ MENDER_STORAGE_NVS_PUBLIC_KEY := by
      decide
    have hframe := mender_storage_write_file_frame
      (mender_storage_write_file fs e1 MENDER_STORAGE_NVS_PRIVATE_KEY
        private_key).1
      e2 MENDER_STORAGE_NVS_PUBLIC_KEY MENDER_STORAGE_NVS_PRIVATE_KEY
      public_key hne
    constructor
    · simp [mender_storage_set_authentication_keys, h1, h2]
    · have hres : mender_storage_set_authentication_keys fs e1 e2
          private_key public_key
          = ((mender_storage_write_file
              (mender_storage_write_file fs e1 MENDER_STORAGE_NVS_PRIVATE_KEY
                private_key).1
              e2 MENDER_STORAGE_NVS_PUBLIC_KEY public_key).1,
            MENDER_FAIL) := by
        simp [mender_storage_set_authentication_keys, h1, h2]
      rw [hres]
      rw [hframe, hcontent]
      simp [fsUpdate]

/-- C8, witness: the private write succeeds, the public write fails to
open its file; the result is MENDER_FAIL and the private-key item holds
the new key. -/
theorem C8_no_rollback_witness :
    (mender_storage_set_authentication_keys emptyFS writeOk ⟨true, none⟩
      [1] [2]).2 = MENDER_FAIL ∧
    (mender_storage_set_authentication_keys emptyFS writeOk ⟨true, none⟩
      [1] [2]).1 MENDER_STORAGE_NVS_PRIVATE_KEY = some [1] :=
  (C8_no_rollback emptyFS writeOk ⟨true, none⟩ [1] [2]).2 (by decide)
    (by decide)

/-- C9: every buffer returned by a successful mender_storage_read_file is
one byte longer than the stored content, carries a NUL byte at the stored
length, and its first `len` bytes are exactly the stored content. -/
theorem C9_read_buffer_nul (fs : FS) (env : ReadEnv) (path : String)
    (buf : List Byte) (len : Nat)
    (h : mender_storage_read_file fs env path = (MENDER_OK, some (buf, len))) :
    buf.length = len + 1 ∧ buf.drop len = [0] ∧
    fs path = some (buf.take len) := by
  unfold mender_storage_read_file at h
  cases hfs : fs path with
  | none => simp [hfs] at h
  | some c =>
    rw [hfs] at h
    by_cases h0 : c.length = 0
    · simp [h0] at h
    · by_cases ha : env.allocFail
      · simp [h0, ha] at h
      · by_cases hr : env.readFail
        · simp [h0, ha, hr] at h
        · have hbuf : c ++ [0] = buf ∧ c.length = len := by
            simpa [h0, ha, hr] using h
          obtain ⟨hb, hl⟩ := hbuf
          subst hb
          subst hl
          refine ⟨by simp, ?_, ?_⟩
          · rw [List.drop_left]
          · rw [List.take_left]

/-- C9, witness: reading a one-byte artifact-name item returns the byte
followed by a NUL, with the reported length 1. -/
theorem C9_read_buffer_nul_witness :
    ([65, 0] : List Byte).length = 1 + 1 ∧
    ([65, 0] : List Byte).drop 1 = [0] ∧
    fsUpdate emptyFS MENDER_STORAGE_NVS_ARTICACT_NAME [65]
      MENDER_STORAGE_NVS_ARTICACT_NAME = some (([65, 0] : List Byte).take 1) :=
  C9_read_buffer_nul
    (fsUpdate emptyFS MENDER_STORAGE_NVS_ARTICACT_NAME [65]) readOk
    MENDER_STORAGE_NVS_ARTICACT_NAME [65, 0] 1 (by decide)

/-- C10: storing a zero-length value is indistinguishable from absence on
the next read — after set_deployment_data with the empty string succeeds,
get_deployment_data returns MENDER_NOT_FOUND, and after set_artifact_name
with the empty string succeeds, get_artifact_name returns MENDER_OK with
the default "unknown" buffer instead of the empty string, in every read
environment. -/
theorem C10_empty_value_reads (fs : FS) (env1 env2 : ReadEnv) :
    (mender_storage_set_deployment_data fs writeOk []).2 = MENDER_OK ∧
    mender_storage_get_deployment_data
      (mender_storage_set_deployment_data fs writeOk []).1 env1
      = (MENDER_NOT_FOUND, none) ∧
    (mender_storage_set_artifact_name fs writeOk []).2 = MENDER_OK ∧
    mender_storage_get_artifact_name
      (mender_storage_set_artifact_name fs writeOk []).1 env2
      = (MENDER_OK, some unknownBuf) := by
  refine ⟨?_, ?_, ?_, ?_⟩
  · simp [mender_storage_set_deployment_data, mender_storage_write_file,
      writeOk, fwriteCount]
  · simp [mender_storage_set_deployment_data, mender_storage_write_file,
      mender_storage_get_deployment_data, mender_storage_read_file,
      writeOk, fwriteCount, fsUpdate]
  · simp [mender_storage_set_artifact_name, mender_storage_write_file,
      writeOk, fwriteCount]
  · simp [mender_storage_set_artifact_name, mender_storage_write_file,
      mender_storage_get_artifact_name, mender_storage_read_file,
      writeOk, fwriteCount, fsUpdate]

/-- C6, witness of the amended characterization at an empty filesystem:
get_deployment_data does not return MENDER_FAIL there. -/
theorem C6_get_deployment_data_codes_witness :
    (mender_storage_get_deployment_data emptyFS readOk).1 ≠ MENDER_FAIL :=
  (C6_get_deployment_data_codes emptyFS readOk).1

/-- C10, witness at the empty filesystem and no-failure reads. -/
theorem C10_empty_value_reads_witness :
    (mender_storage_set_deployment_data emptyFS writeOk []).2 = MENDER_OK ∧
    mender_storage_get_deployment_data
      (mender_storage_set_deployment_data emptyFS writeOk []).1 readOk
      = (MENDER_NOT_FOUND, none) ∧
    (mender_storage_set_artifact_name emptyFS writeOk []).2 = MENDER_OK ∧
    mender_storage_get_artifact_name
      (mender_storage_set_artifact_name emptyFS writeOk []).1 readOk
      = (MENDER_OK, some unknownBuf) :=
  C10_empty_value_reads emptyFS readOk readOk

end MenderStorage
